import Mathlib

/-!
Verification of the Financial Calculations Engine of the
sme-financial-health-platform repository.

The engine is pure TypeScript over JS numbers; we embed it shallowly over ℚ.
A `Partial<T>` record field is an `Option ℚ` (`none` = the field is absent /
`undefined`).  The JS idiom `x || d` on a *defined* number `x` (falsy test)
is `orDefault x d`; on a possibly-undefined field it is `orZero`.
`Math.round x` on a rational is `⌊x + 1/2⌋` (JS rounds half towards +∞).
-/

/-- JS `x || d` for a defined number `x`: `d` when `x` is falsy (= 0). -/
def orDefault (x d : ℚ) : ℚ := if x = 0 then d else x

/-- JS `x || 0` for a possibly-undefined field `x`. -/
def orZero (x : Option ℚ) : ℚ :=
  match x with
  | none => 0
  | some v => orDefault v 0

@[simp] theorem orDefault_zero (x : ℚ) : orDefault x 0 = x := by
  unfold orDefault; split <;> simp_all

@[simp] theorem orZero_none : orZero none = 0 := rfl

@[simp] theorem orZero_some (v : ℚ) : orZero (some v) = v := by
  simp [orZero]

theorem orZero_eq_getD (x : Option ℚ) : orZero x = x.getD 0 := by
  cases x <;> simp

/-- JS `Math.round`: round half towards positive infinity. -/
def jsRound (x : ℚ) : ℚ := (⌊x + 1/2⌋ : ℤ)

/-- Input record `FinancialMetrics` (all fields optional). -/
structure FinancialMetrics where
  assets : Option ℚ
  currentAssets : Option ℚ
  inventory : Option ℚ
  liabilities : Option ℚ
  currentLiabilities : Option ℚ
  equity : Option ℚ
  revenue : Option ℚ
  netIncome : Option ℚ
  operatingIncome : Option ℚ
  cogs : Option ℚ
  operatingExpenses : Option ℚ
  interestExpense : Option ℚ
  taxExpense : Option ℚ
  cashFlow : Option ℚ
  accountsReceivable : Option ℚ
  accountsPayable : Option ℚ
  debt : Option ℚ
  shortTermDebt : Option ℚ
  longTermDebt : Option ℚ

/-- The all-absent metrics record (`{}` in TS). -/
def emptyMetrics : FinancialMetrics :=
  ⟨none, none, none, none, none, none, none, none, none, none,
   none, none, none, none, none, none, none, none, none⟩

/-- Output record `Partial<CalculatedRatios>`. -/
structure CalculatedRatios where
  currentRatio : Option ℚ
  quickRatio : Option ℚ
  cashRatio : Option ℚ
  workingCapital : Option ℚ
  profitMargin : Option ℚ
  operatingMargin : Option ℚ
  returnOnAssets : Option ℚ
  returnOnEquity : Option ℚ
  assetTurnover : Option ℚ
  debtToEquityRatio : Option ℚ
  debtToAssetsRatio : Option ℚ
  equityRatio : Option ℚ
  debtServiceCoverageRatio : Option ℚ
  receivablesTurnover : Option ℚ
  payablesTurnover : Option ℚ
  inventoryTurnover : Option ℚ
  daysInventoryOutstanding : Option ℚ
  daysReceivableOutstanding : Option ℚ
  daysPayableOutstanding : Option ℚ
  cashConversionCycle : Option ℚ

/-- The all-absent ratios record (`{}` in TS). -/
def emptyRatios : CalculatedRatios :=
  ⟨none, none, none, none, none, none, none, none, none, none,
   none, none, none, none, none, none, none, none, none, none⟩

/-! ### `calculateFinancialRatios`

The source assigns each output field at most once, guarded by definedness of
its inputs; we translate each assignment block into a per-field function and
assemble the record.  `cashRatio` is declared in the output type but never
assigned by the source, hence it is `none`. -/

def calcCurrentRatio (m : FinancialMetrics) : Option ℚ :=
  match m.currentAssets, m.currentLiabilities with
  | some ca, some cl => some (ca / orDefault cl 1)
  | _, _ => none

def calcQuickRatio (m : FinancialMetrics) : Option ℚ :=
  match m.currentAssets, m.inventory, m.currentLiabilities with
  | some ca, some inv, some cl => some ((ca - orDefault inv 0) / orDefault cl 1)
  | _, _, _ => none

def calcWorkingCapital (m : FinancialMetrics) : Option ℚ :=
  match m.currentAssets, m.currentLiabilities with
  | some ca, some cl => some (ca - cl)
  | _, _ => none

def calcProfitMargin (m : FinancialMetrics) : Option ℚ :=
  match m.netIncome, m.revenue with
  | some ni, some rev => some (ni / orDefault rev 1 * 100)
  | _, _ => none

def calcOperatingMargin (m : FinancialMetrics) : Option ℚ :=
  match m.operatingIncome, m.revenue with
  | some oi, some rev => some (oi / orDefault rev 1 * 100)
  | _, _ => none

def calcReturnOnAssets (m : FinancialMetrics) : Option ℚ :=
  match m.netIncome, m.assets with
  | some ni, some a => some (ni / orDefault a 1 * 100)
  | _, _ => none

def calcReturnOnEquity (m : FinancialMetrics) : Option ℚ :=
  match m.netIncome, m.equity with
  | some ni, some e => some (ni / orDefault e 1 * 100)
  | _, _ => none

def calcAssetTurnover (m : FinancialMetrics) : Option ℚ :=
  match m.revenue, m.assets with
  | some rev, some a => some (rev / orDefault a 1)
  | _, _ => none

def calcDebtToEquityRatio (m : FinancialMetrics) : Option ℚ :=
  match m.debt, m.equity with
  | some d, some e => some (d / orDefault e 1)
  | _, _ => none

def calcDebtToAssetsRatio (m : FinancialMetrics) : Option ℚ :=
  match m.debt, m.assets with
  | some d, some a => some (d / orDefault a 1)
  | _, _ => none

def calcEquityRatio (m : FinancialMetrics) : Option ℚ :=
  match m.equity, m.assets with
  | some e, some a => some (e / orDefault a 1 * 100)
  | _, _ => none

def calcDebtServiceCoverageRatio (m : FinancialMetrics) : Option ℚ :=
  match m.operatingIncome, m.shortTermDebt, m.longTermDebt with
  | some oi, some std, some ltd =>
    let totalDebtService := orDefault std 0 + orDefault ltd 0 + orZero m.interestExpense
    some (oi / orDefault totalDebtService 1)
  | _, _, _ => none

def calcReceivablesTurnover (m : FinancialMetrics) : Option ℚ :=
  match m.revenue, m.accountsReceivable with
  | some rev, some ar => some (rev / orDefault ar 1)
  | _, _ => none

def calcInventoryTurnover (m : FinancialMetrics) : Option ℚ :=
  match m.cogs, m.inventory with
  | some c, some inv => some (c / orDefault inv 1)
  | _, _ => none

def calcPayablesTurnover (m : FinancialMetrics) : Option ℚ :=
  match m.cogs, m.accountsPayable with
  | some c, some ap => some (c / orDefault ap 1)
  | _, _ => none

def calcDaysInventoryOutstanding (m : FinancialMetrics) : Option ℚ :=
  match calcInventoryTurnover m with
  | some it => some (365 / orDefault it 1)
  | none => none

def calcDaysReceivableOutstanding (m : FinancialMetrics) : Option ℚ :=
  match calcReceivablesTurnover m with
  | some rt => some (365 / orDefault rt 1)
  | none => none

def calcDaysPayableOutstanding (m : FinancialMetrics) : Option ℚ :=
  match calcPayablesTurnover m with
  | some pt => some (365 / orDefault pt 1)
  | none => none

def calcCashConversionCycle (m : FinancialMetrics) : Option ℚ :=
  match calcDaysInventoryOutstanding m, calcDaysReceivableOutstanding m,
        calcDaysPayableOutstanding m with
  | some dio, some dro, some dpo =>
    some (orDefault dio 0 + orDefault dro 0 - orDefault dpo 0)
  | _, _, _ => none

/-- `calculateFinancialRatios(metrics)` from the source. -/
def calculateFinancialRatios (m : FinancialMetrics) : CalculatedRatios :=
  { currentRatio := calcCurrentRatio m
    quickRatio := calcQuickRatio m
    cashRatio := none
    workingCapital := calcWorkingCapital m
    profitMargin := calcProfitMargin m
    operatingMargin := calcOperatingMargin m
    returnOnAssets := calcReturnOnAssets m
    returnOnEquity := calcReturnOnEquity m
    assetTurnover := calcAssetTurnover m
    debtToEquityRatio := calcDebtToEquityRatio m
    debtToAssetsRatio := calcDebtToAssetsRatio m
    equityRatio := calcEquityRatio m
    debtServiceCoverageRatio := calcDebtServiceCoverageRatio m
    receivablesTurnover := calcReceivablesTurnover m
    payablesTurnover := calcPayablesTurnover m
    inventoryTurnover := calcInventoryTurnover m
    daysInventoryOutstanding := calcDaysInventoryOutstanding m
    daysReceivableOutstanding := calcDaysReceivableOutstanding m
    daysPayableOutstanding := calcDaysPayableOutstanding m
    cashConversionCycle := calcCashConversionCycle m }

/-! ### `calculateCreditScore`

Each factor starts at 0, is set from a piecewise formula when its primary
ratio is present, and is averaged with a secondary sub-score when that
ratio is present.  The tier is chosen by a top-down ladder; the returned
score is the weighted sum rounded to two decimal places via `Math.round`. -/

structure CreditScoreFactors where
  liquidityScore : ℚ
  profitabilityScore : ℚ
  leverageScore : ℚ
  efficiencyScore : ℚ
  growthScore : ℚ
  paymentHistoryScore : ℚ

structure CreditScoreResult where
  score : ℚ
  tier : String
  factors : CreditScoreFactors

def liquidityScoreOf (cr? : Option ℚ) : ℚ :=
  match cr? with
  | none => 0
  | some cr =>
    if 1.5 ≤ cr ∧ cr ≤ 3.0 then 100
    else if 1.0 ≤ cr ∧ cr < 1.5 then 75
    else if 0.5 ≤ cr ∧ cr < 1.0 then 40
    else max 0 (100 - |cr - 1.5| * 20)

def profitabilityScoreOf (pm? roe? : Option ℚ) : ℚ :=
  let base : ℚ :=
    match pm? with
    | none => 0
    | some pm =>
      if 10 ≤ pm then 100
      else if 5 ≤ pm then 80
      else if 0 ≤ pm then 60
      else max 0 (30 + pm * 3)
  match roe? with
  | none => base
  | some roe => (base + min 100 (roe / 15 * 100)) / 2

def leverageScoreOf (de? dscr? : Option ℚ) : ℚ :=
  let base : ℚ :=
    match de? with
    | none => 0
    | some de =>
      if de ≤ 0.5 then 100
      else if de ≤ 1.0 then 80
      else if de ≤ 2.0 then 50
      else max 0 (100 - de * 20)
  match dscr? with
  | none => base
  | some dscr => (base + min 100 (dscr / 2 * 100)) / 2

def efficiencyScoreOf (ccc? ator? : Option ℚ) : ℚ :=
  let base : ℚ :=
    match ccc? with
    | none => 0
    | some ccc =>
      if ccc ≤ 30 then 100
      else if ccc ≤ 60 then 80
      else if ccc ≤ 90 then 60
      else max 0 (100 - (ccc - 30) / 2)
  match ator? with
  | none => base
  | some ator => (base + min 100 (ator * 50)) / 2

def creditFactors (ratios : CalculatedRatios)
    (paymentHistoryScore growthScore : ℚ) : CreditScoreFactors :=
  { liquidityScore := liquidityScoreOf ratios.currentRatio
    profitabilityScore := profitabilityScoreOf ratios.profitMargin ratios.returnOnEquity
    leverageScore := leverageScoreOf ratios.debtToEquityRatio ratios.debtServiceCoverageRatio
    efficiencyScore := efficiencyScoreOf ratios.cashConversionCycle ratios.assetTurnover
    growthScore := growthScore
    paymentHistoryScore := paymentHistoryScore }

/-- The weighted sum of the six factors, as in the source. -/
def weightedScore (f : CreditScoreFactors) : ℚ :=
  f.liquidityScore * 0.2 +
  f.profitabilityScore * 0.25 +
  f.leverageScore * 0.25 +
  f.efficiencyScore * 0.15 +
  f.growthScore * 0.1 +
  f.paymentHistoryScore * 0.05

/-- The credit-tier ladder of the source (top-down, first match wins). -/
def creditTierLadder (score : ℚ) : String :=
  if 80 ≤ score then "excellent"
  else if 65 ≤ score then "good"
  else if 50 ≤ score then "fair"
  else if 35 ≤ score then "poor"
  else "very_poor"

/-- `calculateCreditScore(ratios, metrics, paymentHistoryScore, growthScore)`.
The source defaults the last two parameters to 50; they are explicit here.
The `metrics` parameter is unused by the source body. -/
def calculateCreditScore (ratios : CalculatedRatios) (_metrics : FinancialMetrics)
    (paymentHistoryScore growthScore : ℚ) : CreditScoreResult :=
  let factors := creditFactors ratios paymentHistoryScore growthScore
  let score := weightedScore factors
  { score := jsRound (score * 100) / 100
    tier := creditTierLadder score
    factors := factors }

/-! ### `assessFinancialRisks` -/

structure RiskAssessment where
  riskTier : String
  riskFactors : List String
  riskScore : ℚ

/-- One `if (field !== undefined && cond(field)) { push(msg); score += pts }`
block of the source, acting on the accumulated (factors, score). -/
def riskCheck (field : Option ℚ) (cond : ℚ → Prop) [DecidablePred cond]
    (msg : String) (pts : ℚ) (acc : List String × ℚ) : List String × ℚ :=
  match field with
  | some v => if cond v then (acc.1 ++ [msg], acc.2 + pts) else acc
  | none => acc

/-- The risk-tier ladder of the source (top-down, first match wins). -/
def riskLadder (riskScore : ℚ) : String :=
  if 80 ≤ riskScore then "very_high"
  else if 60 ≤ riskScore then "high"
  else if 40 ≤ riskScore then "medium"
  else if 20 ≤ riskScore then "low"
  else "very_low"

/-- `assessFinancialRisks(ratios, metrics)` from the source.  The `metrics`
parameter is unused by the source body. -/
def assessFinancialRisks (ratios : CalculatedRatios)
    (_metrics : FinancialMetrics) : RiskAssessment :=
  let acc : List String × ℚ := ([], 0)
  let acc := riskCheck ratios.currentRatio (fun v => v < 1.0)
    "Low liquidity: Current ratio below 1.0" 20 acc
  let acc := riskCheck ratios.quickRatio (fun v => v < 0.5)
    "Critical liquidity: Quick ratio below 0.5" 15 acc
  let acc := riskCheck ratios.profitMargin (fun v => v < 0)
    "Negative profit margin: Business operating at a loss" 25 acc
  let acc := riskCheck ratios.returnOnEquity (fun v => v < 0)
    "Negative ROE: Shareholders' equity is decreasing" 20 acc
  let acc := riskCheck ratios.debtToEquityRatio (fun v => v > 2.0)
    "High leverage: Debt-to-equity ratio exceeds 2.0" 25 acc
  let acc := riskCheck ratios.debtServiceCoverageRatio (fun v => v < 1.0)
    "Debt service risk: Cannot cover debt obligations from operating income" 30 acc
  let acc := riskCheck ratios.cashConversionCycle (fun v => v > 120)
    "Working capital risk: Long cash conversion cycle" 15 acc
  let acc := riskCheck ratios.inventoryTurnover (fun v => v < 1)
    "Inventory risk: Slow inventory turnover" 10 acc
  { riskTier := riskLadder acc.2
    riskFactors := acc.1
    riskScore := min 100 acc.2 }

/-! Spec-side description of the risk checks: the ordered list of
(message, points) pairs of the triggered conditions. -/

/-- One triggered-condition entry, per the spec's table. -/
def riskHit (field : Option ℚ) (cond : ℚ → Prop) [DecidablePred cond]
    (msg : String) (pts : ℚ) : List (String × ℚ) :=
  match field with
  | some v => if cond v then [(msg, pts)] else []
  | none => []

/-- The spec's ordered table of triggered risk conditions. -/
def riskHits (r : CalculatedRatios) : List (String × ℚ) :=
  riskHit r.currentRatio (fun v => v < 1.0)
    "Low liquidity: Current ratio below 1.0" 20 ++
  riskHit r.quickRatio (fun v => v < 0.5)
    "Critical liquidity: Quick ratio below 0.5" 15 ++
  riskHit r.profitMargin (fun v => v < 0)
    "Negative profit margin: Business operating at a loss" 25 ++
  riskHit r.returnOnEquity (fun v => v < 0)
    "Negative ROE: Shareholders' equity is decreasing" 20 ++
  riskHit r.debtToEquityRatio (fun v => v > 2.0)
    "High leverage: Debt-to-equity ratio exceeds 2.0" 25 ++
  riskHit r.debtServiceCoverageRatio (fun v => v < 1.0)
    "Debt service risk: Cannot cover debt obligations from operating income" 30 ++
  riskHit r.cashConversionCycle (fun v => v > 120)
    "Working capital risk: Long cash conversion cycle" 15 ++
  riskHit r.inventoryTurnover (fun v => v < 1)
    "Inventory risk: Slow inventory turnover" 10

/-- The spec's additive risk score (before the cap at 100). -/
def riskPoints (r : CalculatedRatios) : ℚ :=
  ((riskHits r).map Prod.snd).sum

/-! ### `generateCostOptimizationRecommendations` -/

/-- JS `toFixed(1)` on a rational: nearest multiple of 1/10, ties towards the
larger value, rendered with one decimal digit. -/
def ratToFixed1 (x : ℚ) : String :=
  let n : ℤ := ⌊x * 10 + 1/2⌋
  let a : ℕ := n.natAbs
  (if n < 0 then "-" else "") ++ toString (a / 10) ++ "." ++ toString (a % 10)

/-- JS `toFixed(0)` on a rational: nearest integer, ties towards the larger. -/
def ratToFixed0 (x : ℚ) : String :=
  toString (⌊x + 1/2⌋ : ℤ)

structure CostRecommendation where
  category : String
  currentValue : ℚ
  benchmarkValue : ℚ
  savingsPotential : ℚ
  recommendation : String
  priority : String

/-- A benchmarks mapping `Record<string, number>`: keys may be absent. -/
def Benchmarks : Type := String → Option ℚ

/-- The source's benchmark lookup `benchmarks[k] || d`: the default applies
when the key is absent or its value is falsy (= 0). -/
def benchGet (bm : Benchmarks) (k : String) (d : ℚ) : ℚ :=
  match bm k with
  | some v => orDefault v d
  | none => d

/-- Modelled from the spec: the `benchmarks[k] ?? d` lookup the spec
describes, where the default applies only when the key is absent and a
supplied value, including 0, is used as-is. -/
def benchGetNullish (bm : Benchmarks) (k : String) (d : ℚ) : ℚ :=
  match bm k with
  | some v => v
  | none => d

/-- The shared body of the cost optimizer, parameterized by the benchmark
lookup; the source inlines `benchGet`. -/
def genRecsCore (get : String → ℚ → ℚ) (ratios : CalculatedRatios)
    (m : FinancialMetrics) : List CostRecommendation :=
  (match m.operatingExpenses, m.revenue with
   | some opex, some rev =>
     let operatingExpenseRatio := opex / rev * 100
     let benchmarkRatio := get "operatingExpenseRatio" 30
     if operatingExpenseRatio > benchmarkRatio then
       [{ category := "Operating Expenses"
          currentValue := operatingExpenseRatio
          benchmarkValue := benchmarkRatio
          savingsPotential := rev * ((operatingExpenseRatio - benchmarkRatio) / 100)
          recommendation := "Reduce operating expenses by " ++
            ratToFixed1 ((operatingExpenseRatio - benchmarkRatio) / benchmarkRatio * 100) ++
            "% to match industry benchmark. Focus on automation and process efficiency."
          priority := if operatingExpenseRatio > benchmarkRatio * 1.5 then "high" else "medium" }]
     else []
   | _, _ => []) ++
  (match m.cogs, m.revenue with
   | some cogs, some rev =>
     let cogsRatio := cogs / rev * 100
     let benchmarkRatio := get "cogsRatio" 60
     if cogsRatio > benchmarkRatio then
       [{ category := "Cost of Goods Sold"
          currentValue := cogsRatio
          benchmarkValue := benchmarkRatio
          savingsPotential := rev * ((cogsRatio - benchmarkRatio) / 100)
          recommendation := "Optimize COGS by " ++
            ratToFixed1 ((cogsRatio - benchmarkRatio) / benchmarkRatio * 100) ++
            "%. Consider supplier negotiations, bulk purchasing, or production efficiency improvements."
          priority := if cogsRatio > benchmarkRatio * 1.3 then "high" else "medium" }]
     else []
   | _, _ => []) ++
  (match ratios.daysReceivableOutstanding with
   | some dro =>
     let benchmarkDRO := get "daysReceivableOutstanding" 45
     if dro > benchmarkDRO then
       let improvement := dro - benchmarkDRO
       [{ category := "Accounts Receivable"
          currentValue := dro
          benchmarkValue := benchmarkDRO
          savingsPotential := 0
          recommendation := "Improve collection efficiency. Current DRO is " ++
            ratToFixed0 improvement ++
            " days above benchmark. Implement stricter credit policies and faster invoicing."
          priority := if improvement > 30 then "high" else "medium" }]
     else []
   | none => [])

/-- `generateCostOptimizationRecommendations(ratios, metrics, benchmarks)`
from the source (`||`-style benchmark fallback). -/
def generateCostOptimizationRecommendations (ratios : CalculatedRatios)
    (m : FinancialMetrics) (bm : Benchmarks) : List CostRecommendation :=
  genRecsCore (benchGet bm) ratios m

/-- Modelled from the spec: the same optimizer with the `??`-style benchmark
fallback the spec describes (supplied 0 used as-is). -/
def genRecsNullish (ratios : CalculatedRatios)
    (m : FinancialMetrics) (bm : Benchmarks) : List CostRecommendation :=
  genRecsCore (benchGetNullish bm) ratios m

/-! ### `calculateTrendAnalysis`

The output is a JS `Record<string, number>` built by up to four insertions in
a fixed order; we model it as the association list in insertion order. -/

/-- One `if (current.f !== undefined && previous.f !== undefined)
{ trends[key] = ((current.f - previous.f) / previous.f) * 100 }` block of the
source. -/
def trendField (key : String) (c? p? : Option ℚ) : List (String × ℚ) :=
  match c?, p? with
  | some c, some p => [(key, (c - p) / p * 100)]
  | _, _ => []

/-- `calculateTrendAnalysis(currentMetrics, previousMetrics)` from the source. -/
def calculateTrendAnalysis (currentMetrics previousMetrics : FinancialMetrics) :
    List (String × ℚ) :=
  trendField "revenueGrowth" currentMetrics.revenue previousMetrics.revenue ++
  trendField "profitGrowth" currentMetrics.netIncome previousMetrics.netIncome ++
  trendField "assetGrowth" currentMetrics.assets previousMetrics.assets ++
  trendField "equityGrowth" currentMetrics.equity previousMetrics.equity

/-! ### Theorems -/

/-- C10: for every metrics input, the output of `calculateFinancialRatios`
never contains the `cashRatio` field, although it is declared in the
`CalculatedRatios` output type. -/
theorem cashRatio_never_present (m : FinancialMetrics) :
    (calculateFinancialRatios m).cashRatio = none := rfl

/-- C7: when `currentAssets` is defined and `currentLiabilities` is defined
and equal to 0, `calculateFinancialRatios` computes `currentRatio` with
denominator 1, so `currentRatio = currentAssets` exactly (in particular the
division is total and never produces NaN or Infinity). -/
theorem currentRatio_zero_liabilities (m : FinancialMetrics) (ca : ℚ)
    (h1 : m.currentAssets = some ca) (h2 : m.currentLiabilities = some 0) :
    (calculateFinancialRatios m).currentRatio = some ca := by
  have hp : (calculateFinancialRatios m).currentRatio = calcCurrentRatio m := rfl
  rw [hp]
  unfold calcCurrentRatio
  rw [h1, h2]
  norm_num [orDefault]

def mC7 : FinancialMetrics :=
  { emptyMetrics with currentAssets := some 5, currentLiabilities := some 0 }

/-- Witness for C7 at a concrete input. -/
theorem currentRatio_zero_liabilities_witness :
    (calculateFinancialRatios mC7).currentRatio = some 5 :=
  currentRatio_zero_liabilities mC7 5 rfl rfl

def mC3 : FinancialMetrics := { emptyMetrics with operatingIncome := some 10 }

/-- C3 counterexample: `operatingIncome` is defined but `shortTermDebt` and
`longTermDebt` are absent, and the output omits `debtServiceCoverageRatio`,
contradicting the claim that the ratio is present whenever `operatingIncome`
is defined with the other denominator terms defaulting to 0. -/
theorem dscr_missing_despite_operatingIncome :
    mC3.operatingIncome.isSome ∧
    (calculateFinancialRatios mC3).debtServiceCoverageRatio = none := by
  exact ⟨rfl, rfl⟩

/-- C3 amended: when `operatingIncome`, `shortTermDebt` and `longTermDebt`
are all defined, the output contains `debtServiceCoverageRatio` equal to
`operatingIncome / (shortTermDebt + longTermDebt + interestExpense)`, where
only `interestExpense` defaults to 0 when absent, and the denominator is
replaced by 1 when the sum is 0. -/
theorem dscr_formula (m : FinancialMetrics) (oi std ltd : ℚ)
    (h1 : m.operatingIncome = some oi) (h2 : m.shortTermDebt = some std)
    (h3 : m.longTermDebt = some ltd) :
    (calculateFinancialRatios m).debtServiceCoverageRatio =
      some (oi / (if std + ltd + m.interestExpense.getD 0 = 0 then 1
                  else std + ltd + m.interestExpense.getD 0)) := by
  have hp : (calculateFinancialRatios m).debtServiceCoverageRatio =
      calcDebtServiceCoverageRatio m := rfl
  rw [hp]
  unfold calcDebtServiceCoverageRatio
  rw [h1, h2, h3]
  simp only [orDefault_zero, orZero_eq_getD]
  simp only [orDefault]

def mC3w : FinancialMetrics :=
  { emptyMetrics with operatingIncome := some 10, shortTermDebt := some 0,
                      longTermDebt := some 0 }

/-- Witness for C3's amended theorem at a concrete input: the denominator sum
is 0, so it is replaced by 1 and the ratio equals `operatingIncome`. -/
theorem dscr_formula_witness :
    (calculateFinancialRatios mC3w).debtServiceCoverageRatio = some 10 := by
  have h := dscr_formula mC3w 10 0 0 rfl rfl rfl
  rw [h]
  norm_num [mC3w, emptyMetrics]

/-- C8: the output contains `cashConversionCycle` if and only if it contains
all three of `daysInventoryOutstanding`, `daysReceivableOutstanding` and
`daysPayableOutstanding`, and in that case it equals their signed sum
`dio + dro - dpo`. -/
theorem cashConversionCycle_characterization (m : FinancialMetrics) :
    ((calculateFinancialRatios m).cashConversionCycle.isSome ↔
      ((calculateFinancialRatios m).daysInventoryOutstanding.isSome ∧
       (calculateFinancialRatios m).daysReceivableOutstanding.isSome ∧
       (calculateFinancialRatios m).daysPayableOutstanding.isSome)) ∧
    (∀ a b c : ℚ,
      (calculateFinancialRatios m).daysInventoryOutstanding = some a →
      (calculateFinancialRatios m).daysReceivableOutstanding = some b →
      (calculateFinancialRatios m).daysPayableOutstanding = some c →
      (calculateFinancialRatios m).cashConversionCycle = some (a + b - c)) := by
  have hc : (calculateFinancialRatios m).cashConversionCycle =
      calcCashConversionCycle m := rfl
  have h1 : (calculateFinancialRatios m).daysInventoryOutstanding =
      calcDaysInventoryOutstanding m := rfl
  have h2 : (calculateFinancialRatios m).daysReceivableOutstanding =
      calcDaysReceivableOutstanding m := rfl
  have h3 : (calculateFinancialRatios m).daysPayableOutstanding =
      calcDaysPayableOutstanding m := rfl
  rw [hc, h1, h2, h3]
  unfold calcCashConversionCycle
  rcases hdio : calcDaysInventoryOutstanding m with _ | a <;>
    rcases hdro : calcDaysReceivableOutstanding m with _ | b <;>
      rcases hdpo : calcDaysPayableOutstanding m with _ | c <;>
        simp_all

def mC8 : FinancialMetrics :=
  { emptyMetrics with cogs := some 365, inventory := some 1,
                      revenue := some 365, accountsReceivable := some 1,
                      accountsPayable := some 1 }

/-- Witness for C8 at a concrete input where all three day-metrics exist. -/
theorem cashConversionCycle_characterization_witness :
    (calculateFinancialRatios mC8).cashConversionCycle = some 1 := by
  have h := (cashConversionCycle_characterization mC8).2 1 1 1
  have hdio : (calculateFinancialRatios mC8).daysInventoryOutstanding = some 1 := by
    show calcDaysInventoryOutstanding mC8 = some 1
    norm_num [calcDaysInventoryOutstanding, calcInventoryTurnover, mC8,
      emptyMetrics, orDefault]
  have hdro : (calculateFinancialRatios mC8).daysReceivableOutstanding = some 1 := by
    show calcDaysReceivableOutstanding mC8 = some 1
    norm_num [calcDaysReceivableOutstanding, calcReceivablesTurnover, mC8,
      emptyMetrics, orDefault]
  have hdpo : (calculateFinancialRatios mC8).daysPayableOutstanding = some 1 := by
    show calcDaysPayableOutstanding mC8 = some 1
    norm_num [calcDaysPayableOutstanding, calcPayablesTurnover, mC8,
      emptyMetrics, orDefault]
  have := h hdio hdro hdpo
  rw [this]
  norm_num

theorem riskCheck_eq (field : Option ℚ) (cond : ℚ → Prop) [DecidablePred cond]
    (msg : String) (pts : ℚ) (acc : List String × ℚ) :
    riskCheck field cond msg pts acc =
      (acc.1 ++ (riskHit field cond msg pts).map Prod.fst,
       acc.2 + ((riskHit field cond msg pts).map Prod.snd).sum) := by
  cases field with
  | none => simp [riskCheck, riskHit]
  | some v =>
    by_cases h : cond v <;> simp [riskCheck, riskHit, h]

theorem riskLadder_min_100 (s : ℚ) : riskLadder (min 100 s) = riskLadder s := by
  rcases le_or_lt s 100 with h | h
  · rw [min_eq_right h]
  · rw [min_eq_left h.le]
    have h80s : (80 : ℚ) ≤ s := by linarith
    unfold riskLadder
    rw [if_pos (show (80 : ℚ) ≤ 100 by norm_num), if_pos h80s]

/-- C4: `assessFinancialRisks` returns `riskFactors` as exactly the fixed
message strings of the triggered conditions in evaluation order (conditions
with an absent ratio field are skipped), `riskScore` as the sum of the
triggered conditions' point values (20, 15, 25, 20, 25, 30, 15, 10) capped at
100, and `riskTier` as the ladder (≥80 very_high, ≥60 high, ≥40 medium,
≥20 low, else very_low) applied to the returned risk score. -/
theorem assessFinancialRisks_characterization (r : CalculatedRatios)
    (m : FinancialMetrics) :
    (assessFinancialRisks r m).riskFactors = (riskHits r).map Prod.fst ∧
    (assessFinancialRisks r m).riskScore = min 100 (riskPoints r) ∧
    (assessFinancialRisks r m).riskTier =
      riskLadder ((assessFinancialRisks r m).riskScore) := by
  refine ⟨?_, ?_, ?_⟩
  · simp only [assessFinancialRisks, riskCheck_eq, riskHits]
    simp [List.map_append, List.append_assoc]
  · simp only [assessFinancialRisks, riskCheck_eq, riskHits, riskPoints]
    simp only [List.map_append, List.sum_append]
    congr 1
    ring
  · simp only [assessFinancialRisks]
    rw [riskLadder_min_100]

def rC1 : CalculatedRatios := { emptyRatios with returnOnEquity := some (-200) }

/-- C1 counterexample: with only `returnOnEquity = -200` present and
caller-supplied `paymentHistoryScore = 0` and `growthScore = 0` (both in
[0,100]), the returned score is negative — the unclamped ROE sub-score
`min 100 (roe/15*100)` drives the profitability factor far below 0, so the
score does not lie in [0,100]. -/
theorem creditScore_below_zero :
    (calculateCreditScore rC1 emptyMetrics 0 0).score < 0 := by
  have hraw : weightedScore (creditFactors rC1 0 0) = -500/3 := by
    norm_num [creditFactors, weightedScore, liquidityScoreOf,
      profitabilityScoreOf, leverageScoreOf, efficiencyScoreOf, rC1,
      emptyRatios, min_def]
  have hs : (calculateCreditScore rC1 emptyMetrics 0 0).score =
      jsRound (weightedScore (creditFactors rC1 0 0) * 100) / 100 := rfl
  rw [hs, hraw]
  have hfl : ⌊(-500/3 * 100 : ℚ) + 1/2⌋ = -16667 := by
    rw [Int.floor_eq_iff] <;> norm_num
  unfold jsRound
  rw [hfl]
  norm_num

theorem liquidityScoreOf_le_100 (cr? : Option ℚ) : liquidityScoreOf cr? ≤ 100 := by
  unfold liquidityScoreOf
  rcases cr? with _ | cr
  · norm_num
  · dsimp only
    split_ifs with h1 h2 h3
    · norm_num
    · norm_num
    · norm_num
    · have h0 : (0 : ℚ) ≤ |cr - 1.5| * 20 := by positivity
      have : (100 : ℚ) - |cr - 1.5| * 20 ≤ 100 := by linarith
      exact max_le (by norm_num) this

theorem profitabilityScoreOf_le_100 (pm? roe? : Option ℚ) :
    profitabilityScoreOf pm? roe? ≤ 100 := by
  unfold profitabilityScoreOf
  have hbase : (match pm? with
    | none => (0 : ℚ)
    | some pm =>
      if 10 ≤ pm then 100
      else if 5 ≤ pm then 80
      else if 0 ≤ pm then 60
      else max 0 (30 + pm * 3)) ≤ 100 := by
    rcases pm? with _ | pm
    · norm_num
    · dsimp only
      split_ifs with h1 h2 h3
      · norm_num
      · norm_num
      · norm_num
      · push_neg at h3
        exact max_le (by norm_num) (by linarith)
  rcases roe? with _ | roe
  · simpa using hbase
  · simp only
    have hm : min (100 : ℚ) (roe / 15 * 100) ≤ 100 := min_le_left _ _
    have := hbase
    simp only at this
    linarith

theorem leverageScoreOf_le_100 (de? dscr? : Option ℚ) :
    leverageScoreOf de? dscr? ≤ 100 := by
  unfold leverageScoreOf
  have hbase : (match de? with
    | none => (0 : ℚ)
    | some de =>
      if de ≤ 0.5 then 100
      else if de ≤ 1.0 then 80
      else if de ≤ 2.0 then 50
      else max 0 (100 - de * 20)) ≤ 100 := by
    rcases de? with _ | de
    · norm_num
    · dsimp only
      split_ifs with h1 h2 h3
      · norm_num
      · norm_num
      · norm_num
      · push_neg at h3
        exact max_le (by norm_num) (by linarith)
  rcases dscr? with _ | dscr
  · simpa using hbase
  · simp only
    have hm : min (100 : ℚ) (dscr / 2 * 100) ≤ 100 := min_le_left _ _
    simp only at hbase
    linarith

theorem efficiencyScoreOf_le_100 (ccc? ator? : Option ℚ) :
    efficiencyScoreOf ccc? ator? ≤ 100 := by
  unfold efficiencyScoreOf
  have hbase : (match ccc? with
    | none => (0 : ℚ)
    | some ccc =>
      if ccc ≤ 30 then 100
      else if ccc ≤ 60 then 80
      else if ccc ≤ 90 then 60
      else max 0 (100 - (ccc - 30) / 2)) ≤ 100 := by
    rcases ccc? with _ | ccc
    · norm_num
    · dsimp only
      split_ifs with h1 h2 h3
      · norm_num
      · norm_num
      · norm_num
      · push_neg at h3
        exact max_le (by norm_num) (by linarith)
  rcases ator? with _ | ator
  · simpa using hbase
  · simp only
    have hm : min (100 : ℚ) (ator * 50) ≤ 100 := min_le_left _ _
    simp only at hbase
    linarith

/-- C1 amended: under the claim's hypotheses (caller-supplied
`paymentHistoryScore` and `growthScore` each in [0,100]), the returned score
is at most 100; the lower bound 0 of the claim fails (see the
counterexample), since the ROE, DSCR and asset-turnover sub-scores are
clamped from above but not from below. -/
theorem creditScore_le_100 (ratios : CalculatedRatios) (m : FinancialMetrics)
    (ph g : ℚ) (hph0 : 0 ≤ ph) (hph1 : ph ≤ 100) (hg0 : 0 ≤ g) (hg1 : g ≤ 100) :
    (calculateCreditScore ratios m ph g).score ≤ 100 := by
  have hl := liquidityScoreOf_le_100 ratios.currentRatio
  have hp := profitabilityScoreOf_le_100 ratios.profitMargin ratios.returnOnEquity
  have hlev := leverageScoreOf_le_100 ratios.debtToEquityRatio ratios.debtServiceCoverageRatio
  have he := efficiencyScoreOf_le_100 ratios.cashConversionCycle ratios.assetTurnover
  have hraw : weightedScore (creditFactors ratios ph g) ≤ 100 := by
    unfold weightedScore creditFactors
    simp only
    linarith
  have hs : (calculateCreditScore ratios m ph g).score =
      jsRound (weightedScore (creditFactors ratios ph g) * 100) / 100 := rfl
  rw [hs]
  unfold jsRound
  have hlt : ⌊weightedScore (creditFactors ratios ph g) * 100 + 1/2⌋ < 10001 := by
    apply Int.floor_lt.mpr
    push_cast
    linarith
  have hle : ⌊weightedScore (creditFactors ratios ph g) * 100 + 1/2⌋ ≤ 10000 := by
    omega
  have hle' : ((⌊weightedScore (creditFactors ratios ph g) * 100 + 1/2⌋ : ℤ) : ℚ) ≤ 10000 := by
    exact_mod_cast hle
  linarith

/-- Witness for C1's amended theorem at a concrete input. -/
theorem creditScore_le_100_witness :
    (calculateCreditScore emptyRatios emptyMetrics 50 50).score ≤ 100 :=
  creditScore_le_100 emptyRatios emptyMetrics 50 50 (by norm_num)
    (by norm_num) (by norm_num) (by norm_num)

def rC5 : CalculatedRatios :=
  { emptyRatios with currentRatio := some 2, returnOnEquity := some (3747/625),
                     debtToEquityRatio := some (2/5),
                     cashConversionCycle := some 20 }

/-- C5 counterexample: at this input the unrounded weighted sum is 79.996, so
the source assigns tier "good", but the returned score rounds to 80.00, whose
ladder value is "excellent" — the tier is not determined by the returned
(rounded) score. -/
theorem creditTier_not_from_rounded_score :
    (calculateCreditScore rC5 emptyMetrics 100 100).tier ≠
      creditTierLadder ((calculateCreditScore rC5 emptyMetrics 100 100).score) := by
  have hraw : weightedScore (creditFactors rC5 100 100) = 19999/250 := by
    norm_num [creditFactors, weightedScore, liquidityScoreOf,
      profitabilityScoreOf, leverageScoreOf, efficiencyScoreOf, rC5,
      emptyRatios, min_def]
  have htier : (calculateCreditScore rC5 emptyMetrics 100 100).tier = "good" := by
    have h1 : (calculateCreditScore rC5 emptyMetrics 100 100).tier =
        creditTierLadder (weightedScore (creditFactors rC5 100 100)) := rfl
    rw [h1, hraw]
    norm_num [creditTierLadder]
  have hscore : (calculateCreditScore rC5 emptyMetrics 100 100).score = 80 := by
    have h2 : (calculateCreditScore rC5 emptyMetrics 100 100).score =
        jsRound (weightedScore (creditFactors rC5 100 100) * 100) / 100 := rfl
    rw [h2, hraw]
    unfold jsRound
    have hfl : ⌊(19999/250 * 100 : ℚ) + 1/2⌋ = 8000 := by
      rw [Int.floor_eq_iff]
      norm_num
    rw [hfl]
    norm_num
  rw [htier, hscore]
  unfold creditTierLadder
  norm_num
  decide

/-- C5 amended: the returned tier is determined by the ladder
(≥80 excellent, ≥65 good, ≥50 fair, ≥35 poor, else very_poor) applied to the
weighted sum of the returned factors *before* rounding; the returned score is
that same weighted sum rounded to 2 decimal places. -/
theorem creditTier_from_unrounded_score (ratios : CalculatedRatios)
    (m : FinancialMetrics) (ph g : ℚ) :
    (calculateCreditScore ratios m ph g).tier =
      creditTierLadder (weightedScore ((calculateCreditScore ratios m ph g).factors)) ∧
    (calculateCreditScore ratios m ph g).score =
      jsRound (weightedScore ((calculateCreditScore ratios m ph g).factors) * 100) / 100 :=
  ⟨rfl, rfl⟩

theorem trendField_keys (a k : String) (c? p? : Option ℚ) :
    a ∈ (trendField k c? p?).map Prod.fst ↔
      (a = k ∧ c?.isSome ∧ p?.isSome) := by
  rcases c? with _ | c <;> rcases p? with _ | p <;> simp [trendField]

theorem mem_map_fst_trendField {a k : String} {c? p? : Option ℚ}
    (h : a ∈ (trendField k c? p?).map Prod.fst) : a = k :=
  ((trendField_keys a k c? p?).mp h).1

theorem nodup_trendField_keys (k : String) (c? p? : Option ℚ) :
    ((trendField k c? p?).map Prod.fst).Nodup := by
  rcases c? with _ | c <;> rcases p? with _ | p <;> simp [trendField]

theorem mem_trendField_key {kv : String × ℚ} {k : String} {c? p? : Option ℚ}
    (h : kv ∈ trendField k c? p?) : kv.1 = k := by
  rcases c? with _ | c <;> rcases p? with _ | p <;> simp_all [trendField]

/-- C9: the trend output contains `revenueGrowth` (resp. `profitGrowth`,
`assetGrowth`, `equityGrowth`) exactly when `revenue` (resp. `netIncome`,
`assets`, `equity`) is present in both inputs; when present with a nonzero
previous value the entry equals `(current − previous)/previous × 100`; the
keys are pairwise distinct, and no key other than these four ever appears. -/
theorem trend_characterization (cur prev : FinancialMetrics) :
    ("revenueGrowth" ∈ (calculateTrendAnalysis cur prev).map Prod.fst ↔
        cur.revenue.isSome ∧ prev.revenue.isSome) ∧
    ("profitGrowth" ∈ (calculateTrendAnalysis cur prev).map Prod.fst ↔
        cur.netIncome.isSome ∧ prev.netIncome.isSome) ∧
    ("assetGrowth" ∈ (calculateTrendAnalysis cur prev).map Prod.fst ↔
        cur.assets.isSome ∧ prev.assets.isSome) ∧
    ("equityGrowth" ∈ (calculateTrendAnalysis cur prev).map Prod.fst ↔
        cur.equity.isSome ∧ prev.equity.isSome) ∧
    (∀ c p : ℚ, cur.revenue = some c → prev.revenue = some p → p ≠ 0 →
        ("revenueGrowth", (c - p) / p * 100) ∈ calculateTrendAnalysis cur prev) ∧
    (∀ c p : ℚ, cur.netIncome = some c → prev.netIncome = some p → p ≠ 0 →
        ("profitGrowth", (c - p) / p * 100) ∈ calculateTrendAnalysis cur prev) ∧
    (∀ c p : ℚ, cur.assets = some c → prev.assets = some p → p ≠ 0 →
        ("assetGrowth", (c - p) / p * 100) ∈ calculateTrendAnalysis cur prev) ∧
    (∀ c p : ℚ, cur.equity = some c → prev.equity = some p → p ≠ 0 →
        ("equityGrowth", (c - p) / p * 100) ∈ calculateTrendAnalysis cur prev) ∧
    ((calculateTrendAnalysis cur prev).map Prod.fst).Nodup ∧
    (∀ kv ∈ calculateTrendAnalysis cur prev,
        kv.1 = "revenueGrowth" ∨ kv.1 = "profitGrowth" ∨
        kv.1 = "assetGrowth" ∨ kv.1 = "equityGrowth") := by
  have hrp : ("revenueGrowth" : String) ≠ "profitGrowth" := by decide
  have hra : ("revenueGrowth" : String) ≠ "assetGrowth" := by decide
  have hre : ("revenueGrowth" : String) ≠ "equityGrowth" := by decide
  have hpa : ("profitGrowth" : String) ≠ "assetGrowth" := by decide
  have hpe : ("profitGrowth" : String) ≠ "equityGrowth" := by decide
  have hae : ("assetGrowth" : String) ≠ "equityGrowth" := by decide
  have hdisj : ∀ (k1 k2 : String) (c1 p1 c2 p2 : Option ℚ), k1 ≠ k2 →
      List.Disjoint ((trendField k1 c1 p1).map Prod.fst)
        ((trendField k2 c2 p2).map Prod.fst) := by
    intro k1 k2 c1 p1 c2 p2 hne a h1 h2
    exact hne ((mem_map_fst_trendField h1) ▸ (mem_map_fst_trendField h2))
  refine ⟨?_, ?_, ?_, ?_, ?_, ?_, ?_, ?_, ?_, ?_⟩
  · simp only [calculateTrendAnalysis, List.map_append, List.mem_append,
      trendField_keys]
    simp [hrp, hra, hre]
  · simp only [calculateTrendAnalysis, List.map_append, List.mem_append,
      trendField_keys]
    simp [hrp.symm, hpa, hpe]
  · simp only [calculateTrendAnalysis, List.map_append, List.mem_append,
      trendField_keys]
    simp [hra.symm, hpa.symm, hae]
  · simp only [calculateTrendAnalysis, List.map_append, List.mem_append,
      trendField_keys]
    simp [hre.symm, hpe.symm, hae.symm]
  · intro c p h1 h2 _
    simp [calculateTrendAnalysis, trendField, h1, h2]
  · intro c p h1 h2 _
    simp [calculateTrendAnalysis, trendField, h1, h2]
  · intro c p h1 h2 _
    simp [calculateTrendAnalysis, trendField, h1, h2]
  · intro c p h1 h2 _
    simp [calculateTrendAnalysis, trendField, h1, h2]
  · simp only [calculateTrendAnalysis, List.map_append, List.nodup_append,
      List.disjoint_append_right, List.disjoint_append_left]
    repeat' apply And.intro
    all_goals first
      | exact nodup_trendField_keys _ _ _
      | (apply hdisj; decide)
  · intro kv hkv
    simp only [calculateTrendAnalysis, List.mem_append] at hkv
    rcases hkv with ((h | h) | h) | h
    · exact Or.inl (mem_trendField_key h)
    · exact Or.inr (Or.inl (mem_trendField_key h))
    · exact Or.inr (Or.inr (Or.inl (mem_trendField_key h)))
    · exact Or.inr (Or.inr (Or.inr (mem_trendField_key h)))

def mT1 : FinancialMetrics := { emptyMetrics with revenue := some 110 }

def mT2 : FinancialMetrics := { emptyMetrics with revenue := some 100 }

/-- Witness for C9 at a concrete pair of inputs. -/
theorem trend_characterization_witness :
    ("revenueGrowth", ((110 : ℚ) - 100) / 100 * 100) ∈ calculateTrendAnalysis mT1 mT2 :=
  (trend_characterization mT1 mT2).2.2.2.2.1 110 100 rfl rfl (by norm_num)

/-- Removing the zero-valued entries of a benchmarks mapping. -/
def dropZeroEntries (bm : Benchmarks) : Benchmarks := fun k =>
  match bm k with
  | some v => if v = 0 then none else some v
  | none => none

theorem benchGet_eq_nullish_dropZero (bm : Benchmarks) (k : String) (d : ℚ) :
    benchGet bm k d = benchGetNullish (dropZeroEntries bm) k d := by
  cases hbk : bm k with
  | none => simp [benchGet, benchGetNullish, dropZeroEntries, hbk]
  | some v =>
    by_cases hv : v = 0 <;>
      simp [benchGet, benchGetNullish, dropZeroEntries, orDefault, hbk, hv]

def bmC2 : Benchmarks := fun k =>
  if k = "operatingExpenseRatio" then some 0 else none

def mC2 : FinancialMetrics :=
  { emptyMetrics with operatingExpenses := some 10, revenue := some 100 }

/-- C2 counterexample: with a supplied benchmark of 0 for the
operating-expense ratio and an actual ratio of 10, the claim (value 0 used
as-is, so 10 > 0 triggers a recommendation) demands one recommendation, but
the source's `||`-fallback replaces the supplied 0 by the default 30, so
10 > 30 fails and the engine returns no recommendation. -/
theorem zero_benchmark_not_used_as_is :
    generateCostOptimizationRecommendations emptyRatios mC2 bmC2 = [] ∧
    (genRecsNullish emptyRatios mC2 bmC2).length = 1 := by
  constructor
  · norm_num [generateCostOptimizationRecommendations, genRecsCore, benchGet,
      orDefault, mC2, emptyMetrics, emptyRatios, bmC2]
  · norm_num [genRecsNullish, genRecsCore, benchGetNullish, mC2,
      emptyMetrics, emptyRatios, bmC2]

/-- C2 amended: the engine-internal defaults (30 for the operating-expense
ratio, 60 for the COGS ratio, 45 for days-receivable) are used when the
corresponding key is missing *or its supplied value is 0* (JS falsy
fallback); a supplied nonzero value is used as-is.  Formally: the source
optimizer on `bm` coincides with the spec's `??`-style optimizer on `bm`
with its zero-valued entries removed. -/
theorem costRecs_zero_benchmark_as_missing (ratios : CalculatedRatios)
    (m : FinancialMetrics) (bm : Benchmarks) :
    generateCostOptimizationRecommendations ratios m bm =
      genRecsNullish ratios m (dropZeroEntries bm) := by
  unfold generateCostOptimizationRecommendations genRecsNullish
  have h : benchGet bm = benchGetNullish (dropZeroEntries bm) := by
    funext k d
    exact benchGet_eq_nullish_dropZero bm k d
  rw [h]

def bmEmpty : Benchmarks := fun _ => none

def mC6 : FinancialMetrics :=
  { emptyMetrics with operatingExpenses := some (-1), revenue := some (-1) }

/-- C6 counterexample: with negative revenue −1 and operating expenses −1 the
operating-expense ratio is 100 > 30, and the produced recommendation has
`savingsPotential = −1 × ((100 − 30)/100) = −0.7 < 0`. -/
theorem savingsPotential_can_be_negative :
    ((generateCostOptimizationRecommendations emptyRatios mC6 bmEmpty).map
      CostRecommendation.savingsPotential) = [-(7/10)] ∧ (-(7/10) : ℚ) < 0 := by
  constructor
  · norm_num [generateCostOptimizationRecommendations, genRecsCore, benchGet,
      orDefault, mC6, emptyMetrics, emptyRatios, bmEmpty]
  · norm_num

/-- C6 amended: for every input whose `revenue`, when present, is positive,
every recommendation returned by `generateCostOptimizationRecommendations`
has `savingsPotential ≥ 0` (the two monetary blocks then multiply a positive
revenue by a positive ratio overage, and the receivables block always emits
0); with a negative revenue the claim fails (see the counterexample). -/
theorem savingsPotential_nonneg (ratios : CalculatedRatios)
    (m : FinancialMetrics) (bm : Benchmarks)
    (hrev : ∀ v : ℚ, m.revenue = some v → 0 < v) :
    ∀ rec ∈ generateCostOptimizationRecommendations ratios m bm,
      0 ≤ rec.savingsPotential := by
  intro rec hrec
  unfold generateCostOptimizationRecommendations genRecsCore at hrec
  simp only [List.mem_append] at hrec
  rcases hrec with (h | h) | h
  · cases hr : m.revenue with
    | none =>
      rw [hr] at h
      cases ho : m.operatingExpenses <;> rw [ho] at h <;> simp at h
    | some v =>
      have hv : 0 < v := hrev v hr
      rw [hr] at h
      cases ho : m.operatingExpenses with
      | none => rw [ho] at h; simp at h
      | some opex =>
        rw [ho] at h
        simp only at h
        by_cases hc : benchGet bm "operatingExpenseRatio" 30 < opex / v * 100
        · rw [if_pos hc] at h
          simp only [List.mem_singleton] at h
          subst h
          simp only
          apply mul_nonneg hv.le
          apply div_nonneg (by linarith) (by norm_num)
        · rw [if_neg hc] at h
          simp at h
  · cases hr : m.revenue with
    | none =>
      rw [hr] at h
      cases ho : m.cogs <;> rw [ho] at h <;> simp at h
    | some v =>
      have hv : 0 < v := hrev v hr
      rw [hr] at h
      cases ho : m.cogs with
      | none => rw [ho] at h; simp at h
      | some cogs =>
        rw [ho] at h
        simp only at h
        by_cases hc : benchGet bm "cogsRatio" 60 < cogs / v * 100
        · rw [if_pos hc] at h
          simp only [List.mem_singleton] at h
          subst h
          simp only
          apply mul_nonneg hv.le
          apply div_nonneg (by linarith) (by norm_num)
        · rw [if_neg hc] at h
          simp at h
  · cases hd : ratios.daysReceivableOutstanding with
    | none =>
      rw [hd] at h
      simp at h
    | some dro =>
      rw [hd] at h
      simp only at h
      by_cases hc : dro > benchGet bm "daysReceivableOutstanding" 45
      · rw [if_pos hc] at h
        simp only [List.mem_singleton] at h
        subst h
        norm_num
      · rw [if_neg hc] at h
        simp at h

def mC6w : FinancialMetrics :=
  { emptyMetrics with operatingExpenses := some 50, revenue := some 100 }

def recC6w : CostRecommendation :=
  { category := "Operating Expenses"
    currentValue := 50
    benchmarkValue := 30
    savingsPotential := 20
    recommendation := "Reduce operating expenses by " ++ ratToFixed1 (200/3) ++
      "% to match industry benchmark. Focus on automation and process efficiency."
    priority := "high" }

/-- Witness for C6's amended theorem at a concrete input with positive
revenue: the produced operating-expense recommendation exists and its
savings potential is nonnegative. -/
theorem savingsPotential_nonneg_witness :
    recC6w ∈ generateCostOptimizationRecommendations emptyRatios mC6w bmEmpty ∧
    0 ≤ recC6w.savingsPotential := by
  have hmem : recC6w ∈ generateCostOptimizationRecommendations emptyRatios mC6w bmEmpty := by
    norm_num [generateCostOptimizationRecommendations, genRecsCore, benchGet,
      orDefault, mC6w, recC6w, emptyMetrics, emptyRatios, bmEmpty]
  refine ⟨hmem, ?_⟩
  exact savingsPotential_nonneg emptyRatios mC6w bmEmpty
    (by
      intro v hv
      simp only [mC6w, emptyMetrics] at hv
      rw [Option.some.injEq] at hv
      rw [← hv]
      norm_num)
    recC6w hmem
